import Mathlib

set_option maxRecDepth 100000

/-!
Verification of the contextual retrieval-augmented answer pipeline of
`app.py` (the `search_answer` endpoint and its helper functions).

The Python source is shallowly embedded: every external effect (the
scispaCy entity recognizer, the Google Custom Search HTTP call, the
OpenAI call and the Gemini call) is a parameter collected in an `Env`
record; configuration (the five environment-variable keys) is a `Config`
record.  A failing external call is `none` / `.error e`, matching the
Python `except` branches.  All other code is translated function by
function, keeping the source names.
-/

namespace Medi2

/-! ## String primitives mirroring Python semantics -/

/-- Python `str.lower()` (ASCII inputs). -/
def pyLower (s : String) : String := ⟨s.data.map Char.toLower⟩

/-- Python prefix test on character lists, used to build the substring test. -/
def isPrefixOfCh : List Char → List Char → Bool
  | [], _ => true
  | _ :: _, [] => false
  | a :: as, b :: bs => a == b && isPrefixOfCh as bs

/-- Python `needle in hay` substring containment on character lists. -/
def containsSub (needle : List Char) : List Char → Bool
  | [] => needle.isEmpty
  | h :: t => isPrefixOfCh needle (h :: t) || containsSub needle t

/-- Python `needle in hay` on strings. -/
def strContains (hay needle : String) : Bool := containsSub needle.data hay.data

/-- Python `str.strip()` on character lists. -/
def pyStripL (l : List Char) : List Char :=
  ((l.dropWhile Char.isWhitespace).reverse.dropWhile Char.isWhitespace).reverse

/-- Python `str.strip()`. -/
def pyStrip (s : String) : String := ⟨pyStripL s.data⟩

/-! ## Data model -/

/-- One search hit: `{"title": ..., "snippet": ..., "link": ...}`. -/
structure SearchResult where
  title : String
  snippet : String
  link : String
deriving DecidableEq

/-- One conversation turn: `{"role": ..., "content": ...}`. -/
structure Message where
  role : String
  content : String
deriving DecidableEq

/-- The JSON object returned by the endpoint: `{"answer": ..., "sources": ...}`. -/
structure Response where
  answer : String
  sources : List SearchResult
deriving DecidableEq

/-- The five environment variables read at module load. -/
structure Config where
  googleSearchKey : String
  cxRestricted : String
  cxBroad : String
  openaiKey : String
  geminiKey : String

/-- External collaborators.  `nlpEntities` returns the texts of the scispaCy
entities whose label is in `{DISEASE, DISORDER, SYMPTOM, CONDITION}`, in
document order.  `searchCall query num cx` is the Custom Search HTTP call
(`none` = raised exception).  `openaiCall` / `geminiCall` are the two
generative providers (`.error e` = raised exception with message `e`). -/
structure Env where
  nlpEntities : String → List String
  searchCall : String → Nat → String → Option (List SearchResult)
  openaiCall : List Message → Except String String
  geminiCall : String → Except String String

/-! ## `contains_abuse` -/

/-- `ABUSIVE_WORDS` from the source. -/
def ABUSIVE_WORDS : List String :=
  ["idiot", "stupid", "dumb", "hate", "shut up", "fool", "damn", "bastard", "crap"]

/-- `contains_abuse`: lowercases the text and tests each abusive word with
Python's `in` (substring containment). -/
def contains_abuse (text : String) : Bool :=
  ABUSIVE_WORDS.any (fun word => strContains (pyLower text) word)

/-! ## `google_search_with_citations` -/

/-- `google_search_with_citations(query, num_results, broad)`.  Returns the
pair `(results, "")`; every failure path degrades to `([], "")`.  The Python
loop copying `title`/`snippet`/`link` out of the JSON items is the identity
on our `SearchResult` model. -/
def google_search_with_citations (cfg : Config) (env : Env) (query : String)
    (num_results : Nat) (broad : Bool) : List SearchResult × String :=
  if cfg.googleSearchKey.isEmpty then ([], "")
  else if (if broad then cfg.cxBroad else cfg.cxRestricted).isEmpty then ([], "")
  else
    match env.searchCall query num_results (if broad then cfg.cxBroad else cfg.cxRestricted) with
    | none => ([], "")
    | some items => (items, "")

/-! ## `is_answer_incomplete` -/

/-- The hedge phrases tested against the lowercased answer. -/
def hedge_phrases : List String :=
  ["sorry", "don\x27t know", "cannot find", "need more information"]

/-- `question_keywords` from the source. -/
def question_keywords : List String :=
  ["type", "types", "explain", "list", "what are", "different kinds", "kinds"]

/-- `is_answer_incomplete(answer_text, user_query)`. -/
def is_answer_incomplete (answer_text user_query : String) : Bool :=
  let answer_lower := pyLower answer_text
  if hedge_phrases.any (fun phrase => strContains answer_lower phrase) then true
  else if question_keywords.any (fun word => strContains (pyLower user_query) word) then
    !strContains answer_lower "type" && !strContains answer_lower "kind" &&
      !strContains answer_lower "explain"
  else false

/-! ## `rewrite_query`

The source substitutes the regex `\b(it|those|these|that|them)\b`
(IGNORECASE) by the topic.  Because every alternative consists only of
word characters and is anchored by word boundaries on both sides, a match
is exactly a maximal word-character run equal (case-insensitively) to one
of the pronouns; the replacement is not rescanned.  The embedding
tokenizes into word runs and replaces whole runs. -/

/-- Regex `\w` for ASCII: letters, digits, underscore. -/
def isWordChar (c : Char) : Bool := c.isAlphanum || c == '_'

/-- The vague-reference set of `rewrite_query`. -/
def pronoun_words : List String := ["it", "those", "these", "that", "them"]

/-- Emit one maximal word run: replaced by the topic when it equals a
pronoun case-insensitively, kept otherwise. -/
def emit_word (topic : List Char) (w : List Char) : List Char :=
  if w.isEmpty then []
  else if pronoun_words.contains ⟨w.map Char.toLower⟩ then topic else w

/-- Scan the query, accumulating the current word run in reverse in `acc`. -/
def rewrite_go (topic : List Char) (acc : List Char) : List Char → List Char
  | [] => emit_word topic acc.reverse
  | c :: cs =>
    if isWordChar c then rewrite_go topic (c :: acc) cs
    else emit_word topic acc.reverse ++ c :: rewrite_go topic [] cs

/-- `rewrite_query(query, last_topic)`: identity when the topic is absent or
empty (Python truthiness of `if not last_topic`), otherwise whole-word
pronoun substitution. -/
def rewrite_query (query : String) (last_topic : Option String) : String :=
  match last_topic with
  | none => query
  | some t => if t.isEmpty then query else ⟨rewrite_go t.data [] query.data⟩

/-! ## `extract_types_from_snippets`

The regex is `(types|kinds|subtypes|categories) of ([\w\s,]+)` with
IGNORECASE, scanned left to right, non-overlapping; the second group is
greedy, so it is the maximal run of word characters, whitespace and
commas after the literal " of ". -/

/-- The alternation of group 1, in the order the regex tries it. -/
def type_alt_words : List (List Char) :=
  ["types".data, "kinds".data, "subtypes".data, "categories".data]

/-- Case-insensitive literal match (pattern is lowercase): returns the rest
of the text on success. -/
def match_ci : List Char → List Char → Option (List Char)
  | [], rest => some rest
  | _ :: _, [] => none
  | p :: ps, c :: cs => if c.toLower == p then match_ci ps cs else none

/-- Characters allowed in group 2: `[\w\s,]`. -/
def group2_char (c : Char) : Bool := isWordChar c || c.isWhitespace || c == ','

/-- Try each alternative of group 1 at the current position, then the
literal " of ", then a nonempty greedy group 2.  Returns the group-2 text
and the rest after the match. -/
def try_type_alts : List (List Char) → List Char → Option (List Char × List Char)
  | [], _ => none
  | w :: ws, cs =>
    match match_ci w cs with
    | none => try_type_alts ws cs
    | some r1 =>
      match match_ci " of ".data r1 with
      | none => try_type_alts ws cs
      | some r2 =>
        let g2 := r2.takeWhile group2_char
        if g2.isEmpty then try_type_alts ws cs
        else some (g2, r2.drop g2.length)

/-- `finditer` of the pattern: every match consumes at least one character,
so fuel equal to the text length is exact. -/
def find_type_matches (fuel : Nat) (cs : List Char) : List (List Char) :=
  match fuel, cs with
  | 0, _ => []
  | _ + 1, [] => []
  | f + 1, c :: rest =>
    match try_type_alts type_alt_words (c :: rest) with
    | some (g2, after) => g2 :: find_type_matches f after
    | none => find_type_matches f rest

/-- `extract_types_from_snippets(results, topic)`.  Note the source appends
`types_str` in both branches of its topic test, so the topic filter is a
no-op; it is kept verbatim. -/
def extract_types_from_snippets (results : List SearchResult) (topic : Option String) : String :=
  let texts := results.foldr (fun res acc =>
    ((find_type_matches res.snippet.data.length res.snippet.data).map (fun g2 =>
      let types_str : String := pyStrip ⟨g2⟩
      match topic with
      | some t =>
        if t.isEmpty then types_str
        else if strContains (pyLower types_str) (pyLower t) then types_str else types_str
      | none => types_str)) ++ acc) []
  String.intercalate "\n" texts

/-! ## `clean_answer_placeholders`

Two `re.sub` passes then `strip()`.  The first pattern is
`\*\([^)]*citation[^)]*\)\*` (IGNORECASE): with greedy `[^)]*` it matches
exactly a literal "*(", the maximal run of characters other than a
closing parenthesis, a literal ")*", provided that run contains
"citation" case-insensitively.  The second pattern is `\n\s*\n`, replaced
by a blank line: after the first newline the greedy `\s*` backtracks to
the last newline inside the following maximal whitespace run. -/

/-- First `re.sub` pass; every step consumes at least one character so
fuel equal to the length is exact. -/
def scan_placeholders : Nat → List Char → List Char
  | 0, cs => cs
  | _ + 1, [] => []
  | f + 1, c :: rest =>
    if c == '*' then
      match rest with
      | '(' :: r2 =>
        let content := r2.takeWhile (fun ch => ch != ')')
        match r2.drop content.length with
        | ')' :: '*' :: tail =>
          if containsSub "citation".data (content.map Char.toLower) then
            scan_placeholders f tail
          else c :: scan_placeholders f rest
        | _ => c :: scan_placeholders f rest
      | _ => c :: scan_placeholders f rest
    else c :: scan_placeholders f rest

/-- Position one past the last newline of `run`, when `run` has one. -/
def last_nl_cut (run : List Char) : Option Nat :=
  (List.range run.length).foldl
    (fun acc i => if run.get? i == some '\n' then some (i + 1) else acc) none

/-- Second `re.sub` pass (`\n\s*\n` to a blank line). -/
def collapse_nl : Nat → List Char → List Char
  | 0, cs => cs
  | _ + 1, [] => []
  | f + 1, c :: rest =>
    if c == '\n' then
      match last_nl_cut (rest.takeWhile Char.isWhitespace) with
      | some j => '\n' :: '\n' :: collapse_nl f (rest.drop j)
      | none => c :: collapse_nl f rest
    else c :: collapse_nl f rest

/-- First pass with its exact fuel. -/
def remove_placeholder_citations (cs : List Char) : List Char :=
  scan_placeholders cs.length cs

/-- Second pass with its exact fuel. -/
def collapse_blank_lines (cs : List Char) : List Char :=
  collapse_nl cs.length cs

/-- `clean_answer_placeholders(answer_text)`. -/
def clean_answer_placeholders (answer_text : String) : String :=
  pyStrip ⟨collapse_blank_lines (remove_placeholder_citations answer_text.data)⟩

/-! ## `generate_answer_with_sources` and its prompt -/

/-- The fixed part of `system_prompt` (the chained string literals). -/
def base_system_prompt : String :=
  "You are a helpful and knowledgeable medical assistant chatbot. " ++
  "When the user uses pronouns like \x27it\x27, \x27those\x27, \x27these\x27, or says \x27explain that\x27, " ++
  "infer that they mean the most recent medical topic or condition discussed earlier in the conversation. " ++
  "Always keep track of conversational context carefully. " ++
  "Answer the user\x27s questions using ONLY the information in the following web search results. " ++
  "Cite your sources clearly and explicitly by referencing the corresponding source numbers like [1], [2], etc. " ++
  "Do NOT invent or hallucinate citations. " ++
  "Do NOT use any placeholder text such as \x27(This would be a citation...)\x27. " ++
  "If the answer cannot be found in these sources, say politely that you do not know and recommend consulting a healthcare professional.\n\n"

/-- `formatted_results_text`: the numbered evidence list. -/
def formatted_results_text (results : List SearchResult) : String :=
  String.join (results.enum.map (fun p =>
    "[" ++ toString (p.1 + 1) ++ "] " ++ p.2.title ++ "\n" ++ p.2.snippet ++
      "\nSource: " ++ p.2.link ++ "\n\n"))

/-- The full `system_prompt` local of `generate_answer_with_sources`. -/
def build_system_prompt (results : List SearchResult) (last_topic : Option String) : String :=
  let extracted_types := extract_types_from_snippets results last_topic
  let p0 := base_system_prompt
  let p1 :=
    if extracted_types.isEmpty then p0
    else p0 ++ "Here are some types or categories extracted from the search results:\n" ++
      extracted_types ++ "\n\n"
  p1 ++ formatted_results_text results ++ "\n"

/-- The final fallback answer when no provider key is configured. -/
def fallback_no_llm_message : String :=
  "I don\x27t know. Please consult a medical professional."

/-- The `conversation_text` prompt sent to Gemini: the system prompt, then
the serialized conversation. -/
def gemini_conversation_text (system_prompt : String) (messages : List Message) : String :=
  system_prompt ++ "\nConversation:\n" ++
    (messages.foldl (fun acc m =>
      acc ++ (if m.role == "user" then "User" else "Assistant") ++ ": " ++ m.content ++ "\n") "") ++
    "Assistant:"

/-- The Gemini block of `generate_answer_with_sources`, followed by the
final fallback when no Gemini key is configured. -/
def gemini_branch (cfg : Config) (env : Env) (messages : List Message)
    (system_prompt : String) : String :=
  if cfg.geminiKey.isEmpty then fallback_no_llm_message
  else
    match env.geminiCall (gemini_conversation_text system_prompt messages) with
    | .ok t => t
    | .error e => "Gemini error: " ++ e

/-- `generate_answer_with_sources(messages, results, last_topic)`.  OpenAI
is tried first when its key is set; a non-quota exception is returned as
the answer text, a quota exception falls through to the Gemini block. -/
def generate_answer_with_sources (cfg : Config) (env : Env) (messages : List Message)
    (results : List SearchResult) (last_topic : Option String) : String :=
  let system_prompt := build_system_prompt results last_topic
  if cfg.openaiKey.isEmpty then gemini_branch cfg env messages system_prompt
  else
    match env.openaiCall (⟨"system", system_prompt⟩ :: messages) with
    | .ok ans => ans
    | .error e =>
      if strContains (pyLower e) "quota" then gemini_branch cfg env messages system_prompt
      else "OpenAI error: " ++ e

/-! ## `get_last_medical_topic` and `latest_user_message` -/

/-- `get_last_medical_topic(messages)`: newest-first over user turns, the
first turn with a relevant entity yields that entity lowercased. -/
def get_last_medical_topic (env : Env) (messages : List Message) : Option String :=
  messages.reverse.findSome? (fun m =>
    if m.role == "user" then
      match env.nlpEntities m.content with
      | [] => none
      | e :: _ => some (pyLower e)
    else none)

/-- The extraction of `latest_user_message` in `search_answer`: the content
of the last user turn, stripped. -/
def latest_user_message (messages : List Message) : Option String :=
  (messages.reverse.find? (fun m => m.role == "user")).map (fun m => pyStrip m.content)

/-! ## The `search_answer` endpoint -/

/-- Response to a missing or non-list `messages` field (also to an empty list). -/
def missing_messages_response : String :=
  "Please provide conversation history as a list of messages."

/-- Response when no (nonempty) user turn is found. -/
def no_user_message_response : String := "No user message found in conversation."

/-- The canned respectful-redirect answer for abusive input. -/
def polite_response : String :=
  "I am here to help with medical questions. Please keep the conversation respectful. How can I assist you today?"

/-- The canned greeting answer. -/
def greeting_response : String := "Hi! How may I help you with your medical questions today?"

/-- The exact-match greeting list. -/
def greetings : List String :=
  ["hi", "hello", "hey", "good morning", "good afternoon", "good evening"]

/-- A `Response` together with how many times each external stage ran:
`topicCalls` counts `get_last_medical_topic`, `restrictedCalls` and
`broadCalls` the two tiers of `google_search_with_citations`, `genCalls`
the invocations of `generate_answer_with_sources`. -/
structure TracedResponse where
  resp : Response
  topicCalls : Nat
  restrictedCalls : Nat
  broadCalls : Nat
  genCalls : Nat
deriving DecidableEq

/-- Named intermediates of the main path of `search_answer` (the locals
`user_query`, `results`, `answer`, `broad_results`, `broad_answer`). -/
def pipeline_query (env : Env) (messages : List Message) (latest : String) : String :=
  rewrite_query latest (get_last_medical_topic env messages)

/-- The restricted-tier results (`results` local). -/
def pipeline_first_results (cfg : Config) (env : Env) (messages : List Message)
    (latest : String) : List SearchResult :=
  (google_search_with_citations cfg env (pipeline_query env messages latest) 5 false).1

/-- The first cleaned answer (`answer` local). -/
def pipeline_first_answer (cfg : Config) (env : Env) (messages : List Message)
    (latest : String) : String :=
  clean_answer_placeholders (generate_answer_with_sources cfg env messages
    (pipeline_first_results cfg env messages latest) (get_last_medical_topic env messages))

/-- The broad-tier results (`broad_results` local). -/
def pipeline_broad_results (cfg : Config) (env : Env) (messages : List Message)
    (latest : String) : List SearchResult :=
  (google_search_with_citations cfg env (pipeline_query env messages latest) 5 true).1

/-- The second cleaned answer (`broad_answer` local). -/
def pipeline_second_answer (cfg : Config) (env : Env) (messages : List Message)
    (latest : String) : String :=
  clean_answer_placeholders (generate_answer_with_sources cfg env messages
    (pipeline_broad_results cfg env messages latest) (get_last_medical_topic env messages))

/-- The main path of `search_answer`, after the guards: restricted search,
synthesis, completeness check, and the optional single escalation. -/
def main_path (cfg : Config) (env : Env) (messages : List Message) (latest : String) :
    TracedResponse :=
  if (google_search_with_citations cfg env (pipeline_query env messages latest) 5 false).2 ≠ "" then
    ⟨⟨"Search error: " ++
        (google_search_with_citations cfg env (pipeline_query env messages latest) 5 false).2, []⟩,
      1, 1, 0, 0⟩
  else if is_answer_incomplete (pipeline_first_answer cfg env messages latest)
      (pipeline_query env messages latest) then
    if (pipeline_broad_results cfg env messages latest).isEmpty then
      ⟨⟨pipeline_first_answer cfg env messages latest,
          pipeline_first_results cfg env messages latest⟩, 1, 1, 1, 1⟩
    else if (pipeline_second_answer cfg env messages latest).length >
        (pipeline_first_answer cfg env messages latest).length then
      ⟨⟨pipeline_second_answer cfg env messages latest,
          pipeline_broad_results cfg env messages latest⟩, 1, 1, 1, 2⟩
    else
      ⟨⟨pipeline_first_answer cfg env messages latest,
          pipeline_first_results cfg env messages latest⟩, 1, 1, 1, 2⟩
  else
    ⟨⟨pipeline_first_answer cfg env messages latest,
        pipeline_first_results cfg env messages latest⟩, 1, 1, 0, 1⟩

/-- `search_answer` with call counting: the guard chain of the endpoint,
then `main_path`. -/
def search_answer_traced (cfg : Config) (env : Env) (messages : List Message) :
    TracedResponse :=
  if messages.isEmpty then ⟨⟨missing_messages_response, []⟩, 0, 0, 0, 0⟩
  else
    match latest_user_message messages with
    | none => ⟨⟨no_user_message_response, []⟩, 0, 0, 0, 0⟩
    | some latest =>
      if latest = "" then ⟨⟨no_user_message_response, []⟩, 0, 0, 0, 0⟩
      else if contains_abuse latest then ⟨⟨polite_response, []⟩, 0, 0, 0, 0⟩
      else if greetings.contains (pyLower latest) then ⟨⟨greeting_response, []⟩, 0, 0, 0, 0⟩
      else main_path cfg env messages latest

/-- The endpoint response. -/
def search_answer (cfg : Config) (env : Env) (messages : List Message) : Response :=
  (search_answer_traced cfg env messages).resp

/-! ## Spec-modelled comparison definitions -/

/-- Modelled from the spec: the Citation Extractor, missing from the source
code.  Keeps the entries whose 1-based index appears as a bracketed
citation token in the answer text, deduplicated, in original ranking
order. -/
def spec_cited_sources (answer : String) (results : List SearchResult) : List SearchResult :=
  (results.enum.filter (fun p => strContains answer ("[" ++ toString (p.1 + 1) ++ "]"))).map
    Prod.snd

/-- Modelled from the spec: the deterministic fallback answer, missing from
the source code — the snippets of the top 3 results, each suffixed with
its bracketed index. -/
def spec_snippet_fallback (results : List SearchResult) : String :=
  String.intercalate " " ((results.take 3).enum.map (fun p =>
    p.2.snippet ++ " [" ++ toString (p.1 + 1) ++ "]"))

/-- An environment in which every external call fails: scispaCy entities
are arbitrary, every search call raises, and both providers raise with
arbitrary messages. -/
def allFailEnv (ents : String → List String) (e1 e2 : String) : Env :=
  ⟨ents, fun _ _ _ => none, fun _ => .error e1, fun _ => .error e2⟩

/-! ## Helper lemmas -/

theorem string_data_append (s t : String) : (s ++ t).data = s.data ++ t.data := rfl

theorem google_snd (cfg : Config) (env : Env) (q : String) (n : Nat) (b : Bool) :
    (google_search_with_citations cfg env q n b).2 = "" := by
  unfold google_search_with_citations
  repeat' split
  all_goals rfl

theorem google_allFail (cfg : Config) (ents : String → List String) (e1 e2 q : String)
    (n : Nat) (b : Bool) :
    google_search_with_citations cfg (allFailEnv ents e1 e2) q n b = ([], "") := by
  unfold google_search_with_citations allFailEnv
  repeat' split
  all_goals simp_all

theorem isPrefixOfCh_self_append (n b : List Char) : isPrefixOfCh n (n ++ b) = true := by
  induction n with
  | nil => rfl
  | cons c cs ih => simp [isPrefixOfCh, ih]

theorem containsSub_append_middle (a mid b : List Char) :
    containsSub mid (a ++ (mid ++ b)) = true := by
  induction a with
  | nil =>
    cases mid with
    | nil =>
      cases b with
      | nil => rfl
      | cons h t => simp [containsSub, isPrefixOfCh]
    | cons c cs =>
      have h := isPrefixOfCh_self_append (c :: cs) b
      rw [List.cons_append] at h
      simp [containsSub, h]
  | cons x xs ih => simp [containsSub, ih]

theorem contains_abuse_of_decomp (text pre w post : String) (hw : w ∈ ABUSIVE_WORDS)
    (hd : pyLower text = pre ++ w ++ post) : contains_abuse text = true := by
  unfold contains_abuse
  refine List.any_eq_true.mpr ⟨w, hw, ?_⟩
  unfold strContains
  rw [hd, string_data_append, string_data_append, List.append_assoc]
  exact containsSub_append_middle _ _ _

/-- After the input guards pass, the endpoint runs the main path. -/
theorem search_answer_traced_main (cfg : Config) (env : Env) (ms : List Message)
    (latest : String) (h1 : ms.isEmpty = false) (h2 : latest_user_message ms = some latest)
    (h3 : latest ≠ "") (h4 : contains_abuse latest = false)
    (h5 : greetings.contains (pyLower latest) = false) :
    search_answer_traced cfg env ms = main_path cfg env ms latest := by
  unfold search_answer_traced
  rw [h1, h2]
  have h5m : pyLower latest ∉ greetings := by simpa using h5
  simp [h3, h4, h5m]

theorem scan_placeholders_cons (f : Nat) (c : Char) (l : List Char)
    (h : (c == '*') = false) : scan_placeholders (f + 1) (c :: l) = c :: scan_placeholders f l := by
  simp [scan_placeholders, h]

theorem collapse_nl_cons (f : Nat) (c : Char) (l : List Char)
    (h : (c == '\n') = false) : collapse_nl (f + 1) (c :: l) = c :: collapse_nl f l := by
  simp [collapse_nl, h]

theorem pyStripL_cons_ne_nil (c : Char) (l : List Char) (hw : c.isWhitespace = false) :
    pyStripL (c :: l) ≠ [] := by
  unfold pyStripL
  rw [List.dropWhile_cons]
  simp only [hw]
  intro h
  rw [List.reverse_eq_nil_iff] at h
  have hmem : c ∈ (c :: l).reverse := by simp
  have hws := List.dropWhile_eq_nil_iff.mp h c hmem
  rw [hw] at hws
  exact absurd hws (by decide)

theorem clean_ne_empty_cons (c : Char) (l : List Char) (hw : c.isWhitespace = false)
    (hs : (c == '*') = false) : clean_answer_placeholders ⟨c :: l⟩ ≠ "" := by
  have hn : (c == '\n') = false := by
    cases hc : c == '\n' with
    | false => rfl
    | true =>
      exfalso
      rw [show c = '\n' from beq_iff_eq.mp hc] at hw
      exact absurd hw (by decide)
  unfold clean_answer_placeholders remove_placeholder_citations
  rw [show (String.mk (c :: l)).data = c :: l from rfl, List.length_cons,
    scan_placeholders_cons _ _ _ hs]
  unfold collapse_blank_lines
  rw [List.length_cons, collapse_nl_cons _ _ _ hn]
  unfold pyStrip
  intro h
  have hdata : pyStripL ((⟨c :: collapse_nl (scan_placeholders l.length l).length
      (scan_placeholders l.length l)⟩ : String).data) = [] := congrArg String.data h
  exact pyStripL_cons_ne_nil c _ hw hdata

theorem clean_ne_empty_prefix (p s : String) (c : Char) (l : List Char)
    (hp : p.data = c :: l) (hw : c.isWhitespace = false) (hs : (c == '*') = false) :
    clean_answer_placeholders (p ++ s) ≠ "" := by
  have : (p ++ s) = ⟨c :: (l ++ s.data)⟩ := by
    apply String.ext
    rw [string_data_append, hp]
    rfl
  rw [this]
  exact clean_ne_empty_cons c _ hw hs

/-! ## Concrete fixtures used by counterexamples and witnesses -/

/-- A configuration with no key set at all. -/
def cfg0 : Config := ⟨"", "", "", "", ""⟩

/-- A configuration with search keys, both engine ids, and an OpenAI key. -/
def cfgA : Config := ⟨"gkey", "cxr", "cxb", "oakey", ""⟩

/-- Environment for the zero-restricted-results scenario: the entity tagger
finds nothing, every search succeeds with zero items, OpenAI answers with
a complete sentence. -/
def envA : Env :=
  ⟨fun _ => [], fun _ _ _ => some [],
    fun _ => .ok "Diabetes is a chronic condition.", fun _ => .error "unused"⟩

/-- A single-turn conversation asking a plain question. -/
def msA : List Message := [⟨"user", "what is diabetes"⟩]

/-- Restricted-tier hit of the escalation scenario. -/
def rRestricted : SearchResult := ⟨"T1", "alpha beta", "L1"⟩

/-- Broad-tier hit of the escalation scenario; its snippet carries the
marker ZZQ so the provider can tell the two synthesis calls apart. -/
def rBroad : SearchResult := ⟨"T2", "ZZQflu", "L2"⟩

/-- Environment for the escalation scenario: the restricted tier returns
one hit, the broad tier another; the provider answers with a hedge on the
first evidence set and with a short complete answer on the broad one. -/
def envB : Env :=
  ⟨fun _ => [],
    fun _ _ cx => if cx = "cxb" then some [rBroad] else some [rRestricted],
    fun msgs =>
      if strContains (match msgs with | m :: _ => m.content | [] => "") "ZZQ" then .ok "OK. [1]"
      else .ok "Sorry, I cannot find that information right now.",
    fun _ => .error "unused"⟩

/-- Environment for the rewritten-query scenario: the tagger recognizes
the subject only in the first turn, every search returns one hit, the
provider always answers without enumeration keywords. -/
def envC : Env :=
  ⟨fun text => if text = "what is type 2 diabetes" then ["Type 2 Diabetes"] else [],
    fun _ _ _ => some [⟨"T5", "snip", "L5"⟩],
    fun _ => .ok "Metformin is commonly prescribed. [1]",
    fun _ => .error "unused"⟩

/-- Conversation with a vague follow-up turn. -/
def msC : List Message :=
  [⟨"user", "what is type 2 diabetes"⟩, ⟨"assistant", "Info."⟩, ⟨"user", "tell me about it"⟩]

/-- Three restricted-tier hits for the citation scenario. -/
def sHit1 : SearchResult := ⟨"S1", "sn1", "l1"⟩

/-- Second hit for the citation scenario. -/
def sHit2 : SearchResult := ⟨"S2", "sn2", "l2"⟩

/-- Third hit for the citation scenario. -/
def sHit3 : SearchResult := ⟨"S3", "sn3", "l3"⟩

/-- Environment for the citation scenario: three restricted hits, the
answer cites only source 1. -/
def envD : Env :=
  ⟨fun _ => [], fun _ _ cx => if cx = "cxr" then some [sHit1, sHit2, sHit3] else some [],
    fun _ => .ok "Diabetes is a chronic condition. [1]", fun _ => .error "unused"⟩

/-- Environment for the provider-fallback witness: OpenAI raises a quota
error, Gemini succeeds. -/
def envQ : Env :=
  ⟨fun _ => [], fun _ _ _ => some [],
    fun _ => .error "Quota exceeded", fun _ => .ok "Gemini answer."⟩

/-- A configuration with both provider keys set. -/
def cfgQ : Config := ⟨"", "", "", "oa", "gm"⟩

/-! ## Claims -/

/-- C9: the Query Rewriter satisfies the identity law — when the resolved
topic is absent, `rewrite_query` returns the query unchanged. -/
theorem c9_rewrite_identity (query : String) : rewrite_query query none = query := rfl

/-- C3 counterexample: the word stupid occurs in the turn
"That is stupidity" only as a proper substring of a larger word, yet
`contains_abuse` classifies the turn as abusive and the endpoint returns
the canned respectful-redirect answer — matching is substring, not
whole-word. -/
theorem c3_counterexample :
    contains_abuse "That is stupidity" = true ∧
      search_answer cfg0 envA [⟨"user", "That is stupidity"⟩] = ⟨polite_response, []⟩ := by
  decide

/-- C3 amended: Safety Filter matching of abusive terms is case-insensitive
substring matching: whenever an abusive word occurs anywhere in the
lowercased latest user turn — including inside a larger word — the
endpoint returns the canned respectful-redirect answer with empty
sources, regardless of surrounding text. -/
theorem c3_substring_abuse (cfg : Config) (env : Env) (ms : List Message)
    (latest pre w post : String) (h1 : ms.isEmpty = false)
    (h2 : latest_user_message ms = some latest) (h3 : latest ≠ "")
    (h4 : w ∈ ABUSIVE_WORDS) (h5 : pyLower latest = pre ++ w ++ post) :
    search_answer cfg env ms = ⟨polite_response, []⟩ := by
  have habuse := contains_abuse_of_decomp latest pre w post h4 h5
  unfold search_answer search_answer_traced
  rw [h1, h2]
  simp [h3, habuse]

/-- C3 witness: the amended statement applied to a concrete abusive-substring turn. -/
theorem c3_substring_abuse_witness :
    search_answer cfg0 envA [⟨"user", "That is stupidity"⟩] = ⟨polite_response, []⟩ :=
  c3_substring_abuse cfg0 envA [⟨"user", "That is stupidity"⟩] "That is stupidity"
    "that is " "stupid" "ity" (by decide) (by decide) (by decide) (by decide) (by decide)

/-- C10: when the messages list is non-empty and its latest user turn has
empty or whitespace-only content, the endpoint answers with the
no-user-message response, empty sources, and performs no topic
resolution, retrieval, or generation call. -/
theorem c10_whitespace_user_turn (cfg : Config) (env : Env) (ms : List Message)
    (h1 : ms.isEmpty = false) (h2 : latest_user_message ms = some "") :
    search_answer_traced cfg env ms = ⟨⟨no_user_message_response, []⟩, 0, 0, 0, 0⟩ := by
  unfold search_answer_traced
  rw [h1, h2]
  simp

/-- C10 witness: a whitespace-only user turn. -/
theorem c10_whitespace_user_turn_witness :
    search_answer_traced cfg0 envA [⟨"user", "   "⟩] =
      ⟨⟨no_user_message_response, []⟩, 0, 0, 0, 0⟩ :=
  c10_whitespace_user_turn cfg0 envA [⟨"user", "   "⟩] (by decide) (by decide)

/-- C1 counterexample: the restricted tier returns zero results, yet the
broad tier is never called (broadCalls is 0): a complete-looking first
answer suppresses the broad search, refuting the zero-results cascade
policy. -/
theorem c1_counterexample :
    (google_search_with_citations cfgA envA (pipeline_query envA msA "what is diabetes")
        5 false).1 = [] ∧
      search_answer_traced cfgA envA msA =
        ⟨⟨"Diabetes is a chronic condition.", []⟩, 1, 1, 0, 1⟩ := by
  decide

/-- C1 amended: the restricted tier is always called exactly once, and the
broad tier is called exactly when the Completeness Evaluator flags the
first synthesized answer as incomplete — not when the restricted tier
returns zero results. -/
theorem c1_broad_iff_incomplete (cfg : Config) (env : Env) (ms : List Message)
    (latest : String) (h1 : ms.isEmpty = false) (h2 : latest_user_message ms = some latest)
    (h3 : latest ≠ "") (h4 : contains_abuse latest = false)
    (h5 : greetings.contains (pyLower latest) = false) :
    (search_answer_traced cfg env ms).restrictedCalls = 1 ∧
      ((search_answer_traced cfg env ms).broadCalls = 1 ↔
        is_answer_incomplete (pipeline_first_answer cfg env ms latest)
          (pipeline_query env ms latest) = true) := by
  rw [search_answer_traced_main cfg env ms latest h1 h2 h3 h4 h5]
  unfold main_path
  rw [google_snd]
  simp only [ne_eq, not_true_eq_false, if_false]
  split
  · next hinc =>
    split
    · simp [hinc]
    · split <;> simp [hinc]
  · next hinc => simp [hinc]

/-- C1 witness: the amended statement at the zero-restricted-results run. -/
theorem c1_broad_iff_incomplete_witness :
    (search_answer_traced cfgA envA msA).restrictedCalls = 1 ∧
      ((search_answer_traced cfgA envA msA).broadCalls = 1 ↔
        is_answer_incomplete (pipeline_first_answer cfgA envA msA "what is diabetes")
          (pipeline_query envA msA "what is diabetes") = true) :=
  c1_broad_iff_incomplete cfgA envA msA "what is diabetes" (by decide) (by decide)
    (by decide) (by decide) (by decide)

/-- C2 counterexample: the first answer is flagged incomplete and the
escalation produces the second answer "OK. [1]", but because the second
answer is shorter the endpoint returns the first answer — the second
answer is not returned unconditionally. -/
theorem c2_counterexample :
    is_answer_incomplete (pipeline_first_answer cfgA envB msA "what is diabetes")
        (pipeline_query envB msA "what is diabetes") = true ∧
      pipeline_second_answer cfgA envB msA "what is diabetes" = "OK. [1]" ∧
      search_answer cfgA envB msA =
        ⟨"Sorry, I cannot find that information right now.", [rRestricted]⟩ ∧
      (search_answer cfgA envB msA).answer ≠
        pipeline_second_answer cfgA envB msA "what is diabetes" := by
  decide

/-- C2 amended: when the first answer is flagged incomplete and the broad
retrieval is non-empty, the second synthesized answer is returned only
when it is strictly longer than the first (with the broad results as
sources); otherwise the first answer and the restricted results are
returned. -/
theorem c2_second_answer_only_if_longer (cfg : Config) (env : Env) (ms : List Message)
    (latest : String) (h1 : ms.isEmpty = false) (h2 : latest_user_message ms = some latest)
    (h3 : latest ≠ "") (h4 : contains_abuse latest = false)
    (h5 : greetings.contains (pyLower latest) = false)
    (h6 : is_answer_incomplete (pipeline_first_answer cfg env ms latest)
      (pipeline_query env ms latest) = true)
    (h7 : (pipeline_broad_results cfg env ms latest).isEmpty = false) :
    search_answer cfg env ms =
      if (pipeline_second_answer cfg env ms latest).length >
          (pipeline_first_answer cfg env ms latest).length then
        ⟨pipeline_second_answer cfg env ms latest, pipeline_broad_results cfg env ms latest⟩
      else
        ⟨pipeline_first_answer cfg env ms latest, pipeline_first_results cfg env ms latest⟩ := by
  unfold search_answer
  rw [search_answer_traced_main cfg env ms latest h1 h2 h3 h4 h5]
  unfold main_path
  rw [google_snd]
  simp only [ne_eq, not_true_eq_false, if_false, h6, h7, if_true, Bool.false_eq_true]
  split <;> rfl

/-- C2 witness: the amended statement at the shorter-second-answer run. -/
theorem c2_second_answer_only_if_longer_witness :
    search_answer cfgA envB msA =
      if (pipeline_second_answer cfgA envB msA "what is diabetes").length >
          (pipeline_first_answer cfgA envB msA "what is diabetes").length then
        ⟨pipeline_second_answer cfgA envB msA "what is diabetes",
          pipeline_broad_results cfgA envB msA "what is diabetes"⟩
      else
        ⟨pipeline_first_answer cfgA envB msA "what is diabetes",
          pipeline_first_results cfgA envB msA "what is diabetes"⟩ :=
  c2_second_answer_only_if_longer cfgA envB msA "what is diabetes" (by decide) (by decide)
    (by decide) (by decide) (by decide) (by decide) (by decide)

/-- C5 counterexample: on the follow-up "tell me about it" the rewritten
query is "tell me about type 2 diabetes"; the incompleteness rule is
false on the original query but true on the rewritten one, and the
pipeline does escalate (broadCalls is 1) — so the evaluator received the
rewritten query, not the original. -/
theorem c5_counterexample :
    is_answer_incomplete "Metformin is commonly prescribed. [1]" "tell me about it" = false ∧
      pipeline_query envC msC "tell me about it" = "tell me about type 2 diabetes" ∧
      is_answer_incomplete "Metformin is commonly prescribed. [1]"
        "tell me about type 2 diabetes" = true ∧
      pipeline_first_answer cfgA envC msC "tell me about it" =
        "Metformin is commonly prescribed. [1]" ∧
      (search_answer_traced cfgA envC msC).broadCalls = 1 := by
  decide

/-- C5 amended: the Completeness Evaluator is invoked with the rewritten
query (after vague-reference substitution): the escalation fires exactly
when the incompleteness rule holds of the first answer and the rewritten
query. -/
theorem c5_evaluator_gets_rewritten_query (cfg : Config) (env : Env) (ms : List Message)
    (latest : String) (h1 : ms.isEmpty = false) (h2 : latest_user_message ms = some latest)
    (h3 : latest ≠ "") (h4 : contains_abuse latest = false)
    (h5 : greetings.contains (pyLower latest) = false) :
    (search_answer_traced cfg env ms).broadCalls =
      (if is_answer_incomplete (pipeline_first_answer cfg env ms latest)
          (pipeline_query env ms latest) then 1 else 0) := by
  rw [search_answer_traced_main cfg env ms latest h1 h2 h3 h4 h5]
  unfold main_path
  rw [google_snd]
  simp only [ne_eq, not_true_eq_false, if_false]
  split
  · next hinc =>
    split
    · simp [hinc]
    · split <;> simp [hinc]
  · next hinc => simp [hinc]

/-- C5 witness: the amended statement at the vague-follow-up run. -/
theorem c5_evaluator_gets_rewritten_query_witness :
    (search_answer_traced cfgA envC msC).broadCalls =
      (if is_answer_incomplete (pipeline_first_answer cfgA envC msC "tell me about it")
          (pipeline_query envC msC "tell me about it") then 1 else 0) :=
  c5_evaluator_gets_rewritten_query cfgA envC msC "tell me about it" (by decide) (by decide)
    (by decide) (by decide) (by decide)

/-- C4 counterexample: with no provider configured and three non-empty
results, the answer is the fixed no-provider message, not the
concatenation of the top-3 snippets with bracketed indices that the
claim describes. -/
theorem c4_counterexample :
    generate_answer_with_sources cfg0 envD msA [sHit1, sHit2, sHit3] none =
        fallback_no_llm_message ∧
      ([sHit1, sHit2, sHit3] : List SearchResult) ≠ [] ∧
      fallback_no_llm_message ≠ spec_snippet_fallback [sHit1, sHit2, sHit3] := by
  decide

/-- C4 amended: when the primary provider fails with a quota-class error
the pipeline falls through to the Gemini block, whose prompt embeds the
identical grounding instruction; a non-quota primary error is returned
as the answer text (prefixed with the provider-error marker); and when
no provider is configured the answer is the fixed no-provider message
regardless of the results — no snippet-concatenation fallback exists. -/
theorem c4_provider_chain (cfg : Config) (env : Env) (ms : List Message)
    (res : List SearchResult) (topic : Option String) (e : String) :
    (cfg.openaiKey.isEmpty = false →
      env.openaiCall (⟨"system", build_system_prompt res topic⟩ :: ms) = .error e →
      strContains (pyLower e) "quota" = true →
      generate_answer_with_sources cfg env ms res topic =
        gemini_branch cfg env ms (build_system_prompt res topic)) ∧
    (cfg.openaiKey.isEmpty = false →
      env.openaiCall (⟨"system", build_system_prompt res topic⟩ :: ms) = .error e →
      strContains (pyLower e) "quota" = false →
      generate_answer_with_sources cfg env ms res topic = "OpenAI error: " ++ e) ∧
    (cfg.openaiKey.isEmpty = true → cfg.geminiKey.isEmpty = true →
      generate_answer_with_sources cfg env ms res topic = fallback_no_llm_message) := by
  refine ⟨?_, ?_, ?_⟩
  · intro h1 h2 h3
    simp only [generate_answer_with_sources, h1, Bool.false_eq_true, if_false]
    rw [h2]
    simp [h3]
  · intro h1 h2 h3
    simp only [generate_answer_with_sources, h1, Bool.false_eq_true, if_false]
    rw [h2]
    simp [h3]
  · intro h1 h2
    simp [generate_answer_with_sources, gemini_branch, h1, h2]

/-- Environment for the non-quota provider-error witness: OpenAI raises a
connection error, search succeeds with zero items. -/
def envN : Env :=
  ⟨fun _ => [], fun _ _ _ => some [],
    fun _ => .error "connection reset", fun _ => .ok "unused"⟩

/-- C4 witness: the quota fall-through at a quota-failing primary, the
error text returned at a non-quota-failing primary, and the fixed
message with no provider configured. -/
theorem c4_provider_chain_witness :
    generate_answer_with_sources cfgQ envQ msA [] none =
        gemini_branch cfgQ envQ msA (build_system_prompt [] none) ∧
      generate_answer_with_sources cfgA envN msA [] none =
        "OpenAI error: " ++ "connection reset" ∧
      generate_answer_with_sources cfg0 envD msA [sHit1] none = fallback_no_llm_message :=
  ⟨(c4_provider_chain cfgQ envQ msA [] none "Quota exceeded").1 (by decide) rfl (by decide),
    (c4_provider_chain cfgA envN msA [] none "connection reset").2.1 (by decide) rfl (by decide),
    (c4_provider_chain cfg0 envD msA [sHit1] none "x").2.2 (by decide) (by decide)⟩

/-- In the all-failing environment the cleaned Gemini-block answer is
never the empty string. -/
theorem gemini_branch_allFail_ne_empty (cfg : Config) (ents : String → List String)
    (e1 e2 : String) (ms : List Message) (sp : String) :
    clean_answer_placeholders (gemini_branch cfg (allFailEnv ents e1 e2) ms sp) ≠ "" := by
  unfold gemini_branch
  split
  · decide
  · exact clean_ne_empty_prefix "Gemini error: " e2 'G' "emini error: ".data rfl
      (by decide) (by decide)

/-- In the all-failing environment the cleaned synthesized answer is never
the empty string. -/
theorem generate_allFail_ne_empty (cfg : Config) (ents : String → List String)
    (e1 e2 : String) (ms : List Message) (res : List SearchResult) (topic : Option String) :
    clean_answer_placeholders
      (generate_answer_with_sources cfg (allFailEnv ents e1 e2) ms res topic) ≠ "" := by
  simp only [generate_answer_with_sources]
  split
  · exact gemini_branch_allFail_ne_empty cfg ents e1 e2 ms _
  · show clean_answer_placeholders
      (if strContains (pyLower e1) "quota" then
        gemini_branch cfg (allFailEnv ents e1 e2) ms _
      else "OpenAI error: " ++ e1) ≠ ""
    split
    · exact gemini_branch_allFail_ne_empty cfg ents e1 e2 ms _
    · exact clean_ne_empty_prefix "OpenAI error: " e1 'O' "penAI error: ".data rfl
        (by decide) (by decide)

/-- In the all-failing environment the main path returns empty sources and
a non-empty answer. -/
theorem main_path_allFail (cfg : Config) (ents : String → List String) (e1 e2 : String)
    (ms : List Message) (latest : String) :
    (main_path cfg (allFailEnv ents e1 e2) ms latest).resp.sources = [] ∧
      (main_path cfg (allFailEnv ents e1 e2) ms latest).resp.answer ≠ "" := by
  have hfr : pipeline_first_results cfg (allFailEnv ents e1 e2) ms latest = [] := by
    unfold pipeline_first_results
    rw [google_allFail]
  have hbr : pipeline_broad_results cfg (allFailEnv ents e1 e2) ms latest = [] := by
    unfold pipeline_broad_results
    rw [google_allFail]
  have hans : pipeline_first_answer cfg (allFailEnv ents e1 e2) ms latest ≠ "" := by
    unfold pipeline_first_answer
    exact generate_allFail_ne_empty cfg ents e1 e2 ms _ _
  unfold main_path
  rw [google_snd]
  simp only [ne_eq, not_true_eq_false, if_false]
  split
  · rw [hbr]
    simp only [List.isEmpty_nil, if_true]
    exact ⟨hfr, hans⟩
  · exact ⟨hfr, hans⟩

/-- C6: upstream failures are absorbed — for any configuration, any
conversation, and an environment in which every search raises and both
providers raise, the endpoint still returns a well-formed response: an
empty source list and a non-empty answer string, never a propagated
error. -/
theorem c6_failures_absorbed (cfg : Config) (ents : String → List String)
    (e1 e2 : String) (ms : List Message) :
    (search_answer cfg (allFailEnv ents e1 e2) ms).sources = [] ∧
      (search_answer cfg (allFailEnv ents e1 e2) ms).answer ≠ "" := by
  unfold search_answer search_answer_traced
  split
  · exact ⟨rfl, by decide⟩
  · split
    · exact ⟨rfl, by decide⟩
    · split
      · exact ⟨rfl, by decide⟩
      · split
        · exact ⟨rfl, by decide⟩
        · split
          · exact ⟨rfl, by decide⟩
          · exact main_path_allFail cfg ents e1 e2 ms _

/-- C7: the completeness escalation runs at most once per request — on
every execution path the retrieval cascade runs at most twice (the broad
tier at most once) and the answer synthesizer at most twice. -/
theorem c7_at_most_one_escalation (cfg : Config) (env : Env) (ms : List Message) :
    (search_answer_traced cfg env ms).restrictedCalls +
        (search_answer_traced cfg env ms).broadCalls ≤ 2 ∧
      (search_answer_traced cfg env ms).genCalls ≤ 2 ∧
      (search_answer_traced cfg env ms).broadCalls ≤ 1 := by
  unfold search_answer_traced main_path
  repeat' split
  all_goals simp

/-- C8 counterexample: the answer cites only source 1 of 3, yet all three
results are returned: no citation filtering is applied (and none is
selectable). -/
theorem c8_counterexample :
    search_answer cfgA envD msA =
        ⟨"Diabetes is a chronic condition. [1]", [sHit1, sHit2, sHit3]⟩ ∧
      spec_cited_sources "Diabetes is a chronic condition. [1]" [sHit1, sHit2, sHit3] =
        [sHit1] ∧
      ([sHit1, sHit2, sHit3] : List SearchResult) ≠ [sHit1] := by
  decide

/-- C8 amended: no citation-filtering stage exists in the code — the
returned source list is always either empty (short-circuit paths) or the
full candidate list of one retrieval tier, never filtered by the
citations appearing in the answer text. -/
theorem c8_sources_never_filtered (cfg : Config) (env : Env) (ms : List Message) :
    (search_answer cfg env ms).sources = [] ∨
      ∃ latest, latest_user_message ms = some latest ∧
        ((search_answer cfg env ms).sources = pipeline_first_results cfg env ms latest ∨
          (search_answer cfg env ms).sources = pipeline_broad_results cfg env ms latest) := by
  unfold search_answer search_answer_traced
  split
  · exact Or.inl rfl
  · split
    · exact Or.inl rfl
    · next latest heq =>
      split
      · exact Or.inl rfl
      · split
        · exact Or.inl rfl
        · split
          · exact Or.inl rfl
          · refine Or.inr ⟨latest, heq, ?_⟩
            unfold main_path
            rw [google_snd]
            simp only [ne_eq, not_true_eq_false, if_false]
            split
            · split
              · exact Or.inl rfl
              · split
                · exact Or.inr rfl
                · exact Or.inl rfl
            · exact Or.inl rfl

end Medi2
